import Mathlib

set_option maxRecDepth 4000

/-!
Verification of the sidecar lifecycle supervisor in
`packages/desktop/src-tauri/src/lib.rs`.

The Rust functions are shallowly embedded as pure Lean functions.
Environment lookups (`std::env::var`), file reads and the current working
directory are passed in as `Option String` parameters (`none` models
`Err`/absence), the OS-assigned ephemeral port is a `Nat` parameter, and
the asynchronous event channel of the output reader is modelled as a list
of events consumed in order.  Machine integers are modelled as `Nat` with
explicit range checks where the Rust code performs them.
-/

namespace OpentuiGit

/-- Constant `MAX_LOG_ENTRIES` from lib.rs. -/
def MAX_LOG_ENTRIES : Nat := 200

/-- Constant `SERVER_TIMEOUT_SECS` from lib.rs. -/
def SERVER_TIMEOUT_SECS : Nat := 10

/-- The polling and warm-up sleep interval used in `run`,
`Duration::from_millis(50)`, in milliseconds. -/
def POLL_INTERVAL_MS : Nat := 50

/-- Largest value of the Rust type `u32`. -/
def U32_MAX : Nat := 4294967295

/-- Value of a nonempty list of decimal digit characters, accumulator style;
`none` on the first non-digit character.  Models the digit loop of Rust
`u32::from_str`. -/
def digitsVal : List Char → Nat → Option Nat
  | [], acc => some acc
  | c :: rest, acc =>
      if c.isDigit then digitsVal rest (acc * 10 + (c.toNat - 48)) else none

/-- Model of Rust `str::parse::<u32>` (`u32::from_str`): an optional leading
plus sign, then one or more ASCII decimal digits, and the value must fit in
`u32`; anything else is an error (`none`). -/
def parse_u32 (s : String) : Option Nat :=
  let cs := s.data
  let digits := match cs with
    | '+' :: rest => rest
    | _ => cs
  if digits = [] then none
  else match digitsVal digits 0 with
    | some n => if n ≤ U32_MAX then some n else none
    | none => none

/-- `get_sidecar_port` from lib.rs.  `envPort` models
`std::env::var "OPENTUI_PORT"` (`none` = unset); `osPort` models the port the
OS hands back from binding `127.0.0.1:0` (an ephemeral port that was free at
resolution time — an OS guarantee, not checked by the code). -/
def get_sidecar_port (envPort : Option String) (osPort : Nat) : Nat :=
  match envPort with
  | some port_str =>
      match parse_u32 port_str with
      | some port => port
      | none => osPort
  | none => osPort

/-- Model of Rust `str::ends_with` on the character list of the string
(byte and character suffixes agree on the ASCII literals used here). -/
def strEndsWith (s suf : String) : Bool :=
  List.isSuffixOf suf.data s.data

/-- Model of Rust `str::trim`: leading and trailing whitespace removed
(`Char.isWhitespace` covers the whitespace occurring in practice). -/
def strTrim (s : String) : String :=
  ⟨((s.data.dropWhile Char.isWhitespace).reverse.dropWhile Char.isWhitespace).reverse⟩

/-- `get_user_shell` from lib.rs: the SHELL environment variable, with
`/bin/sh` as the fallback when it is unset. -/
def get_user_shell (envShell : Option String) : String :=
  match envShell with
  | some s => s
  | none => "/bin/sh"

/-- `is_fish_shell` from lib.rs. -/
def is_fish_shell (shell : String) : Bool :=
  strEndsWith shell "/fish" || shell == "fish"

/-- `get_shell_flags` from lib.rs. -/
def get_shell_flags (shell : String) : List String :=
  if is_fish_shell shell then ["-l", "-c"] else ["-il", "-c"]

/-- The single command string built in `spawn_sidecar` (non-Windows branch):
`format!("{} --port {} --repo \"{}\"", sidecar_path.display(), port, repo_path)`. -/
def sidecar_command_str (sidecarPath : String) (port : Nat) (repoPath : String) : String :=
  sidecarPath ++ " --port " ++ toString port ++ " --repo \"" ++ repoPath ++ "\""

/-- The shell invocation assembled in `spawn_sidecar` (non-Windows branch):
the shell program and its argument vector `shell_flags ++ [command_str]`. -/
def sidecar_invocation (envShell : Option String) (sidecarPath : String)
    (port : Nat) (repoPath : String) : String × List String :=
  let shell := get_user_shell envShell
  let shell_flags := get_shell_flags shell
  (shell, shell_flags ++ [sidecar_command_str sidecarPath port repoPath])

/-- Tail of `get_repo_path`: the fallback to `std::env::current_dir()`.
`cwd` is `none` when `current_dir` fails; on failure the code substitutes
`"."` via `unwrap_or_else`. -/
def get_repo_path_cwd (cwd : Option String) : String :=
  match cwd with
  | some p => p
  | none => "."

/-- Middle of `get_repo_path`: the `.repo-path` marker file step.
`markerFile` is `none` when `read_to_string` fails (file absent/unreadable);
its contents are trimmed and used only when nonempty. -/
def get_repo_path_file (markerFile cwd : Option String) : String :=
  match markerFile with
  | some contents =>
      let path := strTrim contents
      if path ≠ "" then path else get_repo_path_cwd cwd
  | none => get_repo_path_cwd cwd

/-- `get_repo_path` from lib.rs.  `envRepo` models
`std::env::var "OPENTUI_REPO"`; the override is used only when nonempty
(`!repo.is_empty()`). -/
def get_repo_path (envRepo markerFile cwd : Option String) : String :=
  match envRepo with
  | some repo =>
      if repo ≠ "" then repo else get_repo_path_file markerFile cwd
  | none => get_repo_path_file markerFile cwd

/-- The eviction loop of the log collector in `spawn_sidecar`:
`while logs.len() > MAX_LOG_ENTRIES { logs.pop_front(); }`.
The `VecDeque` is modelled as a list with its front at the head. -/
def evictOldest (logs : List String) : List String :=
  if h : MAX_LOG_ENTRIES < logs.length then evictOldest logs.tail else logs
termination_by logs.length
decreasing_by
  simp only [List.length_tail]
  omega

/-- One `push_back` followed by the eviction loop, as performed for each
stdout/stderr line in `spawn_sidecar`. -/
def pushLog (logs : List String) (line : String) : List String :=
  evictOldest (logs ++ [line])

/-- `get_logs` from lib.rs: the retained lines joined with the empty
separator (`collect::<Vec<_>>().join("")`). -/
def get_logs (logs : List String) : String :=
  String.join logs

/-- Model of parsing `format!("127.0.0.1:{}", port)` as a `SocketAddr`
(std semantics): the parse succeeds exactly when the port fits in 16 bits,
since `SocketAddr` stores a `u16` port. -/
def parse_loopback_socket_addr (port : Nat) : Option Nat :=
  if port ≤ 65535 then some port else none

/-- `is_server_running` from lib.rs.  `socketOk` models whether
`TcpSocket::new_v4()` succeeds (on failure the probe returns `false`);
`connectOk` models the outcome of `socket.connect(addr)`.  The result is
`none` when the `expect` on the address parse panics, `some b` when the
probe returns reachability `b`. -/
def is_server_running (socketOk : Bool) (port : Nat) (connectOk : Bool) : Option Bool :=
  if socketOk = false then some false
  else
    match parse_loopback_socket_addr port with
    | some _ => some connectOk
    | none => none

/-- Opaque token for a live child process (`CommandChild` of the shell
plugin); only its identity matters to the supervisor. -/
structure CommandChild where
  pid : Nat
deriving DecidableEq

/-- The three observable outcomes of `kill_sidecar`, one per early-return
branch; the Tauri command returns unit in every case, so none of them is an
error surfaced to the caller. -/
inductive KillResult where
  | serverNotRunning
  | stateMissing
  | killed
deriving DecidableEq

/-- `kill_sidecar` from lib.rs.  The state is
`Option (Option CommandChild)`: the outer layer models whether
`ServerState` was ever managed (`try_state`), the inner layer the
`Mutex<Option<CommandChild>>` slot.  The slot is `take`n, so a present
child leaves `some none` behind; `child.kill()` itself has its result
discarded (`let _ =`). -/
def kill_sidecar (state : Option (Option CommandChild)) :
    Option (Option CommandChild) × KillResult :=
  match state with
  | none => (none, KillResult.serverNotRunning)
  | some none => (some none, KillResult.stateMissing)
  | some (some _) => (some none, KillResult.killed)

/-- Events delivered on the receiver attached to the spawned sidecar
(`CommandEvent` of the shell plugin). -/
inductive CommandEvent where
  | stdout (line : String)
  | stderr (line : String)
  | error (err : String)
  | terminated (code : Int)
  | other
deriving DecidableEq

/-- Why the output-reader loop of `spawn_sidecar` stopped: the channel was
closed (`rx.recv()` returned `None`), or a `Terminated` event hit the
`break`. -/
inductive StopReason where
  | channelClosed
  | terminated
deriving DecidableEq

/-- The output-reader loop of `spawn_sidecar`
(`while let Some(event) = rx.recv().await`), consuming the event channel as
a list.  `logs` is the shared log buffer, `console` the lines mirrored to
the host stdout/stderr (stdout and stderr lines via `print!`/`eprint!`,
errors via `eprintln!`, termination via `println!`).  Returns the final
buffer, the console output, and why the loop stopped. -/
def readerLoop (logs console : List String) :
    List CommandEvent → List String × List String × StopReason
  | [] => (logs, console, StopReason.channelClosed)
  | e :: rest =>
      match e with
      | CommandEvent.stdout line =>
          readerLoop (pushLog logs ("[stdout] " ++ line)) (console ++ [line]) rest
      | CommandEvent.stderr line =>
          readerLoop (pushLog logs ("[stderr] " ++ line)) (console ++ [line]) rest
      | CommandEvent.error err =>
          readerLoop logs (console ++ ["[tauri] Sidecar error: " ++ err]) rest
      | CommandEvent.terminated _ =>
          (logs, console ++ ["[tauri] Sidecar terminated"], StopReason.terminated)
      | CommandEvent.other => readerLoop logs console rest

/-- Whether an event is a `Terminated` event. -/
def CommandEvent.isTerminated : CommandEvent → Bool
  | CommandEvent.terminated _ => true
  | _ => false

/-- Outcome of the readiness-wait loop in `run`, tagged with the number of
completed 50 ms sleep intervals when the loop ended. -/
inductive WaitOutcome where
  | ready (k : Nat)
  | failedTimeout (k : Nat)
deriving DecidableEq

/-- The readiness-wait loop of `run`, under a discrete clock: iteration `k`
runs after `k` sleeps of `POLL_INTERVAL_MS`, so `start.elapsed()` at its
timeout check is `POLL_INTERVAL_MS * k` milliseconds (probes are treated as
instantaneous).  The loop first checks
`start.elapsed() > Duration::from_secs(SERVER_TIMEOUT_SECS)` and exits the
app on timeout; otherwise it probes `is_server_running port` (modelled by
`probe k`) and breaks to ready on success, else sleeps and repeats. -/
def waitServer (probe : Nat → Bool) (k : Nat) : WaitOutcome :=
  if h : 1000 * SERVER_TIMEOUT_SECS < POLL_INTERVAL_MS * k then
    WaitOutcome.failedTimeout k
  else if probe k then WaitOutcome.ready k
  else waitServer probe (k + 1)
termination_by (1000 * SERVER_TIMEOUT_SECS / POLL_INTERVAL_MS + 1) - k
decreasing_by
  simp only [SERVER_TIMEOUT_SECS, POLL_INTERVAL_MS] at *
  omega

/-- Observable result of the startup task spawned in the setup hook of `run`. -/
structure SetupResult where
  /-- whether `spawn_sidecar` was invoked -/
  spawnInvoked : Bool
  /-- the `ServerState` contents once managed; `none` when the task
  returned early (timeout) before `app_handle.manage` ran -/
  managedChild : Option (Option CommandChild)
  /-- whether control reached the `WebviewWindow::builder` call -/
  windowAttempted : Bool
  /-- `some 1` when `app_handle.exit(1)` was requested -/
  exitCode : Option Nat
deriving DecidableEq

/-- The startup task of `run`: pre-check with `is_server_running`
(`alreadyRunning` is its result), spawn and wait when not running, then
create the window and manage the child handle in `ServerState`.
`windowOk` models whether the window build succeeds (on failure the code
requests exit 1 but still manages the state). -/
def runSetup (alreadyRunning windowOk : Bool) (probe : Nat → Bool)
    (child : CommandChild) : SetupResult :=
  let should_spawn := !alreadyRunning
  if should_spawn then
    match waitServer probe 0 with
    | WaitOutcome.failedTimeout _ =>
        { spawnInvoked := true, managedChild := none,
          windowAttempted := false, exitCode := some 1 }
    | WaitOutcome.ready _ =>
        { spawnInvoked := true, managedChild := some (some child),
          windowAttempted := true,
          exitCode := if windowOk then none else some 1 }
  else
    { spawnInvoked := false, managedChild := some none,
      windowAttempted := true,
      exitCode := if windowOk then none else some 1 }

/-! ## Helper lemmas -/

/-- The eviction loop drops exactly the surplus oldest entries. -/
theorem evictOldest_eq_drop (logs : List String) :
    evictOldest logs = logs.drop (logs.length - MAX_LOG_ENTRIES) := by
  induction logs using evictOldest.induct with
  | case1 logs h ih =>
    rw [evictOldest, dif_pos h, ih, List.drop_tail]
    congr 1
    simp only [List.length_tail]
    omega
  | case2 logs h =>
    rw [evictOldest, dif_neg h]
    have hz : logs.length - MAX_LOG_ENTRIES = 0 := by omega
    rw [hz, List.drop_zero]

/-- Closed form of repeated appends: starting from a buffer within capacity,
the final buffer is the suffix of all appended lines, after the prior
contents, that fits in `MAX_LOG_ENTRIES`. -/
theorem foldl_pushLog_eq_drop (lines : List String) :
    ∀ q : List String, q.length ≤ MAX_LOG_ENTRIES →
      List.foldl pushLog q lines =
        (q ++ lines).drop (q.length + lines.length - MAX_LOG_ENTRIES) := by
  induction lines with
  | nil =>
    intro q hq
    simp only [List.foldl_nil, List.append_nil, List.length_nil]
    have hz : q.length + 0 - MAX_LOG_ENTRIES = 0 := by omega
    rw [hz, List.drop_zero]
  | cons l rest ih =>
    intro q hq
    have hpush : pushLog q l = (q ++ [l]).drop (q.length + 1 - MAX_LOG_ENTRIES) := by
      rw [pushLog, evictOldest_eq_drop]
      congr 1
      simp
    have hle : (pushLog q l).length ≤ MAX_LOG_ENTRIES := by
      rw [hpush]
      simp only [List.length_drop, List.length_append, List.length_singleton]
      omega
    rw [List.foldl_cons, ih _ hle, hpush]
    rw [← List.drop_append_of_le_length (by simp)]
    rw [List.drop_drop]
    have harith : (q.length + 1 - MAX_LOG_ENTRIES) +
        (((q ++ [l]).drop (q.length + 1 - MAX_LOG_ENTRIES)).length + rest.length
          - MAX_LOG_ENTRIES) =
        q.length + (l :: rest).length - MAX_LOG_ENTRIES := by
      simp only [List.length_drop, List.length_append, List.length_singleton,
        List.length_cons, List.length_nil]
      omega
    rw [harith, List.append_assoc, List.singleton_append]

/-- The wait loop only reports a timeout after the elapsed time has strictly
exceeded the timeout budget. -/
theorem waitServer_failed_gt (probe : Nat → Bool) (k j : Nat)
    (h : waitServer probe k = WaitOutcome.failedTimeout j) :
    1000 * SERVER_TIMEOUT_SECS < POLL_INTERVAL_MS * j := by
  induction k using waitServer.induct probe with
  | case1 k h1 =>
    rw [waitServer, dif_pos h1] at h
    cases h
    exact h1
  | case2 k h1 h2 =>
    rw [waitServer, dif_neg h1, if_pos h2] at h
    cases h
  | case3 k h1 h2 ih =>
    rw [waitServer, dif_neg h1, if_neg h2] at h
    exact ih h

/-- When every probe fails, the wait loop times out at iteration 201, the
first whose elapsed time 50·201 ms exceeds the 10 s budget. -/
theorem waitServer_allFalse (probe : Nat → Bool) (hp : ∀ j, probe j = false) :
    ∀ n k, k + n = 201 → waitServer probe k = WaitOutcome.failedTimeout 201 := by
  intro n
  induction n with
  | zero =>
    intro k hk
    have hk2 : k = 201 := by omega
    subst hk2
    rw [waitServer, dif_pos (by norm_num [SERVER_TIMEOUT_SECS, POLL_INTERVAL_MS])]
  | succ n ih =>
    intro k hk
    have hbound : ¬ 1000 * SERVER_TIMEOUT_SECS < POLL_INTERVAL_MS * k := by
      simp only [SERVER_TIMEOUT_SECS, POLL_INTERVAL_MS]
      omega
    rw [waitServer, dif_neg hbound, if_neg (by simp [hp k])]
    exact ih (k + 1) (by omega)

/-- The reader loop ends by channel closure exactly when no event of the
consumed sequence is a termination event. -/
theorem readerLoop_closed_iff (evts : List CommandEvent) :
    ∀ logs console : List String,
      (readerLoop logs console evts).2.2 = StopReason.channelClosed ↔
        ∀ e ∈ evts, e.isTerminated = false := by
  induction evts with
  | nil =>
    intro logs console
    simp [readerLoop]
  | cons e rest ih =>
    intro logs console
    cases e <;>
      simp [readerLoop, CommandEvent.isTerminated, ih]

/-- The current-directory fallback never produces the empty string when a
successfully read working directory is nonempty. -/
theorem get_repo_path_cwd_ne_empty (cwd : Option String)
    (hcwd : ∀ d, cwd = some d → d ≠ "") : get_repo_path_cwd cwd ≠ "" := by
  cases cwd with
  | none => simp [get_repo_path_cwd]
  | some d => simpa [get_repo_path_cwd] using hcwd d rfl

/-- The marker-file step never produces the empty string when a successfully
read working directory is nonempty. -/
theorem get_repo_path_file_ne_empty (markerFile cwd : Option String)
    (hcwd : ∀ d, cwd = some d → d ≠ "") : get_repo_path_file markerFile cwd ≠ "" := by
  cases markerFile with
  | none => simpa [get_repo_path_file] using get_repo_path_cwd_ne_empty cwd hcwd
  | some c =>
    simp only [get_repo_path_file]
    split
    · assumption
    · exact get_repo_path_cwd_ne_empty cwd hcwd

/-- `get_repo_path` never produces the empty string when a successfully read
working directory is nonempty. -/
theorem get_repo_path_ne_empty (envRepo markerFile cwd : Option String)
    (hcwd : ∀ d, cwd = some d → d ≠ "") : get_repo_path envRepo markerFile cwd ≠ "" := by
  cases envRepo with
  | none => simpa [get_repo_path] using get_repo_path_file_ne_empty markerFile cwd hcwd
  | some r =>
    simp only [get_repo_path]
    split
    · assumption
    · exact get_repo_path_file_ne_empty markerFile cwd hcwd

/-- When the environment override is absent or empty, `get_repo_path`
reduces to the marker-file step. -/
theorem get_repo_path_of_env_empty (envRepo markerFile cwd : Option String)
    (henv : ∀ s, envRepo = some s → s = "") :
    get_repo_path envRepo markerFile cwd = get_repo_path_file markerFile cwd := by
  cases envRepo with
  | none => rfl
  | some r =>
    have hr : r = "" := henv r rfl
    subst hr
    simp [get_repo_path]

/-- When the marker file is absent or trims to the empty string, the
marker-file step reduces to the current-directory fallback. -/
theorem get_repo_path_file_of_blank (markerFile cwd : Option String)
    (hmf : ∀ c, markerFile = some c → strTrim c = "") :
    get_repo_path_file markerFile cwd = get_repo_path_cwd cwd := by
  cases markerFile with
  | none => rfl
  | some c =>
    have hc : strTrim c = "" := hmf c rfl
    simp [get_repo_path_file, hc]

/-! ## Claim theorems -/

/-- Claim C1: for every combination of environment override, marker-file
contents and working directory, `get_repo_path` returns the override when it
is present (set and nonempty, the first-nonempty-wins reading of the spec),
else the trimmed marker-file contents when present and nonempty, else the
current working directory, and never returns an empty string (the working
directory, when readable, is a nonempty path). -/
theorem c1_repo_path_resolution_order (envRepo markerFile cwd : Option String)
    (hcwd : ∀ d, cwd = some d → d ≠ "") :
    (∀ s, envRepo = some s → s ≠ "" → get_repo_path envRepo markerFile cwd = s) ∧
    ((∀ s, envRepo = some s → s = "") →
      ∀ c, markerFile = some c → strTrim c ≠ "" →
        get_repo_path envRepo markerFile cwd = strTrim c) ∧
    ((∀ s, envRepo = some s → s = "") →
      (∀ c, markerFile = some c → strTrim c = "") →
      ∀ d, cwd = some d → get_repo_path envRepo markerFile cwd = d) ∧
    get_repo_path envRepo markerFile cwd ≠ "" := by
  refine ⟨?_, ?_, ?_, get_repo_path_ne_empty envRepo markerFile cwd hcwd⟩
  · intro s hs hne
    subst hs
    simp [get_repo_path, hne]
  · intro henv c hc hne
    rw [get_repo_path_of_env_empty _ _ _ henv]
    subst hc
    simp [get_repo_path_file, hne]
  · intro henv hmf d hd
    rw [get_repo_path_of_env_empty _ _ _ henv, get_repo_path_file_of_blank _ _ hmf]
    subst hd
    rfl

/-- Witness for C1 at concrete inputs: a nonempty override wins, and with an
empty override plus a padded marker file the trimmed marker contents win. -/
theorem c1_repo_path_resolution_order_witness :
    ("/w" ≠ "" ∧ get_repo_path (some "/o") (some " /m ") (some "/w") = "/o") ∧
    (strTrim " /m " ≠ "" ∧ get_repo_path (some "") (some " /m ") (some "/w") = strTrim " /m ") :=
  ⟨⟨by decide,
    (c1_repo_path_resolution_order (some "/o") (some " /m ") (some "/w")
      (fun d hd => by cases hd; decide)).1 "/o" rfl (by decide)⟩,
   ⟨by decide,
    (c1_repo_path_resolution_order (some "") (some " /m ") (some "/w")
      (fun d hd => by cases hd; decide)).2.1
      (fun s hs => by cases hs; rfl) " /m " rfl (by decide)⟩⟩

/-- Claim C2 counterexample: when the current-directory read fails (and the
earlier sources yield nothing), `get_repo_path` does return a substitute
value, namely `"."`, instead of startup being aborted. -/
theorem c2_counterexample_cwd_failure_returns_substitute :
    get_repo_path none none none = "." := rfl

/-- Claim C2 (amended): if the final fallback — reading the current working
directory — fails, `get_repo_path` recovers by returning the substitute
value `"."`; repository-path resolution never aborts startup. -/
theorem c2_cwd_failure_returns_dot (envRepo markerFile : Option String)
    (henv : ∀ s, envRepo = some s → s = "")
    (hmf : ∀ c, markerFile = some c → strTrim c = "") :
    get_repo_path envRepo markerFile none = "." := by
  rw [get_repo_path_of_env_empty _ _ _ henv, get_repo_path_file_of_blank _ _ hmf]
  rfl

/-- Witness for the amended C2: empty override, all-whitespace marker file,
failing current-directory read. -/
theorem c2_cwd_failure_returns_dot_witness :
    strTrim "  " = "" ∧ get_repo_path (some "") (some "  ") none = "." :=
  ⟨by decide,
   c2_cwd_failure_returns_dot (some "") (some "  ")
     (fun s hs => by cases hs; rfl) (fun c hc => by cases hc; decide)⟩

/-- Claim C3: a set and parseable port override is returned exactly as
parsed (reachability is never checked); a set but unparsable override is
silently ignored and the OS-assigned port is used; with no override the
result is exactly the OS-assigned port, so it inherits every property (such
as lying in the ephemeral range and being unbound at resolution time) that
the OS bind guarantees. -/
theorem c3_port_resolution (envPort : Option String) (osPort : Nat) :
    (∀ s n, envPort = some s → parse_u32 s = some n →
      get_sidecar_port envPort osPort = n) ∧
    (∀ s, envPort = some s → parse_u32 s = none →
      get_sidecar_port envPort osPort = osPort) ∧
    (envPort = none →
      ∀ ephemeralUnbound : Nat → Prop, ephemeralUnbound osPort →
        get_sidecar_port envPort osPort = osPort ∧
        ephemeralUnbound (get_sidecar_port envPort osPort)) := by
  refine ⟨?_, ?_, ?_⟩
  · intro s n hs hp
    subst hs
    simp [get_sidecar_port, hp]
  · intro s hs hp
    subst hs
    simp [get_sidecar_port, hp]
  · intro h P hP
    subst h
    exact ⟨rfl, hP⟩

/-- Witness for C3: a parseable override is returned as-is, an unparsable
one falls through to the OS port. -/
theorem c3_port_resolution_witness :
    parse_u32 "8080" = some 8080 ∧ get_sidecar_port (some "8080") 49152 = 8080 ∧
    parse_u32 "golf" = none ∧ get_sidecar_port (some "golf") 49152 = 49152 :=
  ⟨rfl, (c3_port_resolution (some "8080") 49152).1 "8080" 8080 rfl rfl,
   rfl, (c3_port_resolution (some "golf") 49152).2.1 "golf" rfl rfl⟩

/-- Claim C4: for every sequence of appended lines, the retained buffer is
the most recent lines in original order (the suffix that fits), the log
snapshot is their concatenation in insertion order, and after more than
`MAX_LOG_ENTRIES` appends exactly `MAX_LOG_ENTRIES` entries remain. -/
theorem c4_log_snapshot_retention (lines : List String) :
    List.foldl pushLog [] lines = lines.drop (lines.length - MAX_LOG_ENTRIES) ∧
    get_logs (List.foldl pushLog [] lines) =
      String.join (lines.drop (lines.length - MAX_LOG_ENTRIES)) ∧
    (MAX_LOG_ENTRIES < lines.length →
      (List.foldl pushLog [] lines).length = MAX_LOG_ENTRIES) := by
  have h := foldl_pushLog_eq_drop lines [] (by simp)
  simp only [List.nil_append, List.length_nil, Nat.zero_add] at h
  refine ⟨h, by rw [h, get_logs], ?_⟩
  intro hlt
  rw [h, List.length_drop]
  omega

/-- Witness for C4: appending 201 lines leaves exactly 200 entries. -/
theorem c4_log_snapshot_retention_witness :
    MAX_LOG_ENTRIES < (List.replicate 201 "line").length ∧
    (List.foldl pushLog [] (List.replicate 201 "line")).length = MAX_LOG_ENTRIES :=
  ⟨by simp [MAX_LOG_ENTRIES],
   (c4_log_snapshot_retention (List.replicate 201 "line")).2.2
     (by simp [MAX_LOG_ENTRIES])⟩

/-- Claim C5: killing when a handle is tracked empties the slot; a second
invocation is not an error (it can never report a kill again and leaves the
state unchanged); and invoking it with the slot already empty silently
succeeds with the state-missing message. -/
theorem c5_kill_sidecar_idempotent (state : Option (Option CommandChild)) :
    (∀ inner, state = some inner → (kill_sidecar state).1 = some none) ∧
    (kill_sidecar (kill_sidecar state).1).2 ≠ KillResult.killed ∧
    (kill_sidecar (kill_sidecar state).1).1 = (kill_sidecar state).1 ∧
    kill_sidecar (some none) = (some none, KillResult.stateMissing) := by
  refine ⟨?_, ?_, ?_, rfl⟩ <;>
    rcases state with _ | (_ | c) <;> simp [kill_sidecar]

/-- Witness for C5: a tracked handle is taken by the first kill and the
second kill does not kill again. -/
theorem c5_kill_sidecar_idempotent_witness :
    (kill_sidecar (some (some ⟨77⟩))).1 = some none ∧
    (kill_sidecar (kill_sidecar (some (some ⟨77⟩))).1).2 ≠ KillResult.killed :=
  ⟨(c5_kill_sidecar_idempotent (some (some ⟨77⟩))).1 (some ⟨77⟩) rfl,
   (c5_kill_sidecar_idempotent (some (some ⟨77⟩))).2.1⟩

/-- Claim C6: when the pre-startup readiness probe already reports the
endpoint reachable, the startup task spawns nothing, proceeds to window
creation (Ready), manages an absent handle (`some none`), and even the
shutdown kill leaves that slot absent — the handle is `None` for the whole
run. -/
theorem c6_reuse_skips_spawn (windowOk : Bool) (probe : Nat → Bool)
    (child : CommandChild) :
    (runSetup true windowOk probe child).spawnInvoked = false ∧
    (runSetup true windowOk probe child).managedChild = some none ∧
    (runSetup true windowOk probe child).windowAttempted = true ∧
    (kill_sidecar (runSetup true windowOk probe child).managedChild).1 = some none := by
  simp [runSetup, kill_sidecar]

/-- Claim C7: the wait loop reports a timeout only after the elapsed time
(50 ms per completed poll interval) strictly exceeds the 10 s budget, and
when every probe fails it times out at iteration 201 — elapsed time exactly
the budget plus one polling interval — whereupon the startup task exits the
application with status 1. -/
theorem c7_timeout_budget :
    (∀ (probe : Nat → Bool) (k j : Nat),
        waitServer probe k = WaitOutcome.failedTimeout j →
        1000 * SERVER_TIMEOUT_SECS < POLL_INTERVAL_MS * j) ∧
    (∀ probe : Nat → Bool, (∀ j, probe j = false) →
        waitServer probe 0 = WaitOutcome.failedTimeout 201 ∧
        POLL_INTERVAL_MS * 201 ≤ 1000 * SERVER_TIMEOUT_SECS + POLL_INTERVAL_MS) ∧
    (∀ (windowOk : Bool) (probe : Nat → Bool) (child : CommandChild),
        (∀ j, probe j = false) →
        (runSetup false windowOk probe child).exitCode = some 1) := by
  refine ⟨waitServer_failed_gt, ?_, ?_⟩
  · intro probe hp
    exact ⟨waitServer_allFalse probe hp 201 0 rfl,
      by norm_num [SERVER_TIMEOUT_SECS, POLL_INTERVAL_MS]⟩
  · intro windowOk probe child hp
    simp [runSetup, waitServer_allFalse probe hp 201 0 rfl]

/-- Witness for C7: with the always-false probe the loop fails at iteration
201, past the budget, and the startup task requests exit code 1. -/
theorem c7_timeout_budget_witness :
    waitServer (fun _ => false) 0 = WaitOutcome.failedTimeout 201 ∧
    1000 * SERVER_TIMEOUT_SECS < POLL_INTERVAL_MS * 201 ∧
    (runSetup false true (fun _ => false) ⟨5⟩).exitCode = some 1 :=
  ⟨(c7_timeout_budget.2.1 (fun _ => false) (fun _ => rfl)).1,
   c7_timeout_budget.1 (fun _ => false) 0 201
     (c7_timeout_budget.2.1 (fun _ => false) (fun _ => rfl)).1,
   c7_timeout_budget.2.2 true (fun _ => false) ⟨5⟩ (fun _ => rfl)⟩

/-- Claim C8: the spawn invocation uses the shell named by the SHELL
override, defaulting to `/bin/sh` when it is absent; the fish family gets
the login-only flags `-l -c` and every other shell the combined
interactive-login flags `-il -c`, followed by the single command string. -/
theorem c8_shell_selection (envShell : Option String) (sidecarPath : String)
    (port : Nat) (repoPath : String) :
    (envShell = none →
      (sidecar_invocation envShell sidecarPath port repoPath).1 = "/bin/sh") ∧
    (∀ s, envShell = some s →
      (sidecar_invocation envShell sidecarPath port repoPath).1 = s) ∧
    (∀ shell, is_fish_shell shell = true → get_shell_flags shell = ["-l", "-c"]) ∧
    (∀ shell, is_fish_shell shell = false → get_shell_flags shell = ["-il", "-c"]) ∧
    (sidecar_invocation envShell sidecarPath port repoPath).2 =
      get_shell_flags (get_user_shell envShell) ++
        [sidecar_command_str sidecarPath port repoPath] := by
  refine ⟨?_, ?_, ?_, ?_, rfl⟩
  · intro h
    subst h
    rfl
  · intro s h
    subst h
    rfl
  · intro shell h
    simp [get_shell_flags, h]
  · intro shell h
    simp [get_shell_flags, h]

/-- Witness for C8: a fish path gets `-l -c`, zsh gets `-il -c`, and an
unset SHELL yields `/bin/sh`. -/
theorem c8_shell_selection_witness :
    is_fish_shell "/usr/local/bin/fish" = true ∧
    get_shell_flags "/usr/local/bin/fish" = ["-l", "-c"] ∧
    is_fish_shell "/bin/zsh" = false ∧
    get_shell_flags "/bin/zsh" = ["-il", "-c"] ∧
    (sidecar_invocation none "/opt/app/opentui-git-server" 3000 "/repo").1 = "/bin/sh" :=
  ⟨by decide,
   (c8_shell_selection none "/opt/app/opentui-git-server" 3000 "/repo").2.2.1
     "/usr/local/bin/fish" (by decide),
   by decide,
   (c8_shell_selection none "/opt/app/opentui-git-server" 3000 "/repo").2.2.2.1
     "/bin/zsh" (by decide),
   (c8_shell_selection none "/opt/app/opentui-git-server" 3000 "/repo").1 rfl⟩

/-- Claim C9: an error event only appends a log line to the host console and
processing continues with the remaining events; the reader stops by channel
closure exactly when no consumed event is a termination event, so only a
`Terminated` event or channel closure ends the reader. -/
theorem c9_reader_loop_error_continues (logs console : List String) (err : String)
    (rest : List CommandEvent) :
    readerLoop logs console (CommandEvent.error err :: rest) =
      readerLoop logs (console ++ ["[tauri] Sidecar error: " ++ err]) rest ∧
    (∀ evts : List CommandEvent,
      (readerLoop logs console evts).2.2 = StopReason.channelClosed ↔
        ∀ e ∈ evts, e.isTerminated = false) :=
  ⟨rfl, fun evts => readerLoop_closed_iff evts logs console⟩

/-- Witness for C9: a concrete error event is consumed without stopping the
reader, and a sequence with no termination event ends by channel closure. -/
theorem c9_reader_loop_error_continues_witness :
    readerLoop [] [] [CommandEvent.error "boom", CommandEvent.stdout "a"] =
      readerLoop [] ["[tauri] Sidecar error: boom"] [CommandEvent.stdout "a"] ∧
    (readerLoop [] [] [CommandEvent.error "boom"]).2.2 = StopReason.channelClosed :=
  ⟨(c9_reader_loop_error_continues [] [] "boom" [CommandEvent.stdout "a"]).1,
   ((c9_reader_loop_error_continues [] [] "boom" []).2 [CommandEvent.error "boom"]).mpr
     (fun e he => by rw [List.mem_singleton] at he; subst he; rfl)⟩

/-- Claim C10: the override `"70000"` parses as a `u32`, so
`get_sidecar_port` returns 70000 even though it exceeds 65535; on that port
the socket-address parse of the readiness probe fails, reaching the panic
branch of its `expect` (result `none`) instead of returning `false`. -/
theorem c10_oversized_port_override_reaches_addr_parse_failure :
    parse_u32 "70000" = some 70000 ∧
    get_sidecar_port (some "70000") 0 = 70000 ∧
    65535 < 70000 ∧
    parse_loopback_socket_addr 70000 = none ∧
    is_server_running true 70000 true = none :=
  ⟨rfl, rfl, by norm_num, by decide, by decide⟩

end OpentuiGit
